import Mathlib

/-!
Verification of the typhon collocation engine
(`src/typhon/collocations/collocator.py`) against its specification.

Shallow embedding conventions:

* Timestamps are integers in nanoseconds (numpy `datetime64[ns]`).
* Latitude, longitude and distance values are integers (exact arithmetic on a
  NaN-free subdomain of the float inputs); a `none` coordinate entry models a
  NaN (NaN marks samples excluded from matching).
* The great-circle distance function (`typhon.geodesy.great_circle_distance`)
  and the spatial index (`typhon.geographical.GeoIndex`) are imported by the
  collocator but are not part of the sources under review; following the spec
  they are treated as a correct radius-search oracle parameterised by an
  arbitrary metric `dist : lat1 -> lon1 -> lat2 -> lon2 -> km`.
* numpy arrays become lists; boolean-mask selection becomes filtering over
  positions; `arr.any()` on an integer pair array is modelled by `pairsAny`
  (true iff some entry is nonzero), which is exactly numpy truthiness.
* Python exceptions become `Except CollocError`.
-/

deriving instance DecidableEq for Except

/-- Metric signature of `great_circle_distance(lat1, lon1, lat2, lon2) -> km`. -/
abbrev Metric4 : Type := Int → Int → Int → Int → Int

/-- One input sample row: time (ns), lat, lon; `none` models NaN. -/
abbrev SampleRow : Type := Int × Option Int × Option Int

/-- A NaN-filtered sample row: time (ns), lat, lon. -/
abbrev ValidRow : Type := Int × Int × Int

/-- Default row used for list lookups (never reached at in-range indices). -/
def defRow : SampleRow := (0, none, none)

/-- A point set as handed to `collocate`: parallel time/lat/lon arrays. -/
structure PointSet where
  time : List Int
  lat : List (Option Int)
  lon : List (Option Int)
deriving Repr, DecidableEq

/-- Zip the parallel arrays of a point set into rows. -/
def PointSet.rows (p : PointSet) : List SampleRow :=
  p.time.zip (p.lat.zip p.lon)

/-- numpy truthiness of an integer pair array: `pairs.any()` is true iff some
entry is nonzero.  The source uses this as its emptiness test
(`if not pairs.any()`), which is also false for the single pair (0, 0). -/
def pairsAny (pairs : List (Nat × Nat)) : Bool :=
  pairs.any fun q => q.1 != 0 || q.2 != 0

/-- Elementwise `np.isclose(a, b)` with the numpy defaults
`|a - b| <= atol + rtol * |b|`, `atol = 1e-8`, `rtol = 1e-5`, specialised to
integer values by scaling both sides by `1e8`. -/
def isCloseI (a b : Int) : Bool := 100000000 * |a - b| ≤ 1 + 1000 * |b|

/-- Model of `np.allclose` on 1-D arrays, including numpy broadcasting:
equal lengths compare pointwise, a length-1 array broadcasts against the
other array, and incompatible shapes raise ValueError (`none`). -/
def allcloseI (a b : List Int) : Option Bool :=
  if a.length = b.length then
    some ((a.zip b).all fun q => isCloseI q.1 q.2)
  else if a.length = 1 then
    some (b.all fun y => isCloseI (a.getD 0 0) y)
  else if b.length = 1 then
    some (a.all fun x => isCloseI x (b.getD 0 0))
  else
    none

/-- The mutable collocator state relevant to results: the cached index
(the lat/lon arrays it was built from) and which side built it. -/
structure Collocator where
  index : Option (List Int × List Int)
  index_with_primary : Bool
deriving Repr, DecidableEq

/-- A fresh collocator: no cached index (`self.index = None` and
`self.index_with_primary = False` from `__init__`). -/
def freshCollocator : Collocator := ⟨none, false⟩

/-- Embeds `Collocator._spatial_is_cached`: `np.allclose` on lat and on lon
against the cached build arrays; a ValueError from incompatible shapes is
caught and yields `False`; no cached index yields `False`. -/
def spatial_is_cached (c : Collocator) (lat lon : List Int) : Bool :=
  match c.index with
  | none => false
  | some q =>
    match allcloseI lat q.1, allcloseI lon q.2 with
    | some x, some y => x && y
    | _, _ => false

/-- Embeds `Collocator._choose_points_to_build_index`: build with the much
larger side (magnitude factor), else with a still-valid cached side, else
with the larger side. -/
def choose_points_to_build_index (c : Collocator) (mf : Nat)
    (lat1 lon1 lat2 lon2 : List Int) : Bool :=
  if lat1.length > lat2.length * mf then true
  else if lat2.length > lat1.length * mf then false
  else if c.index_with_primary && spatial_is_cached c lat1 lon1 then true
  else if !c.index_with_primary && spatial_is_cached c lat2 lon2 then false
  else decide (lat1.length > lat2.length)

/-- Embeds `Collocator._build_spatial_index`: reuse the cached index if the
points are allclose to its build points, else build anew.  An index is
represented by the lat/lon arrays it holds (`GeoIndex` stores its build
points; `leaf_size` only affects performance, never results). -/
def build_spatial_index (c : Collocator) (lat lon : List Int) : List Int × List Int :=
  if spatial_is_cached c lat lon then c.index.getD (lat, lon) else (lat, lon)

/-- Modelled from the spec: `GeoIndex.query` (typhon.geographical is not under
src/).  Spec 4.2: for every query point, return all build-point indices within
`radius` of it, together with the distances; a pair carries the build index
first and the query index second, which is the orientation `spatial_search`
then row-normalizes.  The query is a correct radius-search oracle for the
metric `dist`. -/
def GeoIndex.query (dist : Metric4) (blat blon qlat qlon : List Int) (r : Int) :
    List ((Nat × Nat) × Int) :=
  (List.range qlat.length).flatMap fun j =>
    (List.range blat.length).filterMap fun i =>
      let d := dist (blat.getD i 0) (blon.getD i 0) (qlat.getD j 0) (qlon.getD j 0)
      if d ≤ r then some ((i, j), d) else none

/-- Embeds `Collocator.spatial_search`: choose the build side, build (or
reuse) the index, query with radius `max_distance`, return the canonical
empty result when `pairs.any()` is false, and otherwise normalize the row
order so that the first component indexes the primary set. -/
def spatial_search (c : Collocator) (mf : Nat) (dist : Metric4)
    (lat1 lon1 lat2 lon2 : List Int) (max_distance : Int) :
    Collocator × List (Nat × Nat) × List Int :=
  let iwp := choose_points_to_build_index c mf lat1 lon1 lat2 lon2
  let blat := if iwp then lat1 else lat2
  let blon := if iwp then lon1 else lon2
  let qlat := if iwp then lat2 else lat1
  let qlon := if iwp then lon2 else lon1
  let built := build_spatial_index c blat blon
  let c' : Collocator := ⟨some built, iwp⟩
  let pd := GeoIndex.query dist built.1 built.2 qlat qlon max_distance
  if !pairsAny (pd.map (·.1)) then (c', [], [])
  else
    let pairs := if iwp then pd.map (·.1) else pd.map fun q => (q.1.2, q.1.1)
    (c', pairs, pd.map (·.2))

/-- Nanoseconds per second: the unit conversion in
`np.abs(time1 - time2).astype("timedelta64[s]")`. -/
def nsPerS : Int := 1000000000

/-- Embeds `Collocator._get_intervals` for one pair: the absolute time
difference truncated to whole seconds (`astype("timedelta64[s]")` floors the
nonnegative value). -/
def interval_secs (t1 t2 : Int) : Int := (|t1 - t2|).ediv nsPerS

/-- The elementwise comparison `intervals < max_interval` performed by
`Collocator._temporal_check`: the whole-second interval is promoted back to
nanoseconds and compared strictly against `max_interval`. -/
def passes_temporal_check (t1 t2 max_interval : Int) : Bool :=
  interval_secs t1 t2 * nsPerS < max_interval

/-- Helper of `uniqueFirst`: keep the elements not yet seen, in order. -/
def uniqueFirstAux {α : Type} [DecidableEq α] (seen : List α) : List α → List α
  | [] => []
  | x :: xs =>
    if x ∈ seen then uniqueFirstAux seen xs
    else x :: uniqueFirstAux (x :: seen) xs

/-- Embeds `pd.unique`: deduplication keeping the order of first appearance. -/
def uniqueFirst {α : Type} [DecidableEq α] (l : List α) : List α :=
  uniqueFirstAux [] l

/-- The assembled collocation record: the two reduced point subsets, the
remapped pairs, and the per-pair interval (whole seconds) and distance
arrays.  Dataset names and time-coverage attributes are metadata not modelled
here. -/
structure CollocationRecord where
  primarySel : List SampleRow
  secondarySel : List SampleRow
  pairs : List (Nat × Nat)
  intervals : List Int
  distances : List Int
deriving Repr, DecidableEq

/-- The return value of `collocate`: either the canonical empty dataset
`self.empty = xr.Dataset()` or an assembled collocation record. -/
inductive Collocations where
  | empty : Collocations
  | record : CollocationRecord → Collocations
deriving Repr, DecidableEq

/-- The variable names carried by the output dataset: the canonical empty
dataset has none; an assembled record always carries the four
`Collocations/...` variables (besides the data subsets). -/
def Collocations.variables : Collocations → List String
  | .empty => []
  | .record _ =>
    ["Collocations/pairs", "Collocations/interval",
     "Collocations/distance", "Collocations/group"]

/-- Embeds `Collocator._create_return`: return the canonical empty dataset
when `original_pairs.any()` is false; otherwise deduplicate each pair row in
order of first appearance (`pd.unique`), remap the pair entries to positions
within the deduplicated index lists, and select the participating rows. -/
def create_return (prep1 prep2 : List SampleRow) (original_pairs : List (Nat × Nat))
    (intervals : List Int) (distances : List Int) : Collocations :=
  if !pairsAny original_pairs then .empty
  else
    let uniq1 := uniqueFirst (original_pairs.map (·.1))
    let uniq2 := uniqueFirst (original_pairs.map (·.2))
    .record
      { primarySel := uniq1.map fun i => prep1.getD i defRow
        secondarySel := uniq2.map fun i => prep2.getD i defRow
        pairs := original_pairs.map fun q => (uniq1.indexOf q.1, uniq2.indexOf q.2)
        intervals := intervals
        distances := distances }

/-- The two mandatory fields of `check_collocation_data`. -/
def mandatory_fields : List String := ["Collocations/pairs", "Collocations/group"]

/-- Embeds `check_collocation_data`: raise `InvalidCollocationData` when a
mandatory field is missing from the dataset variables. -/
def check_collocation_data (ds : Collocations) : Except String Unit :=
  mandatory_fields.forM fun f =>
    if f ∈ ds.variables then pure ()
    else Except.error ("Could not find the field " ++ f ++ "!")

/-- Python exceptions raised by the collocator. -/
inductive CollocError where
  | valueError (msg : String)
  | notImplementedError (msg : String)
  | indexError (msg : String)
deriving Repr, DecidableEq

/-- Embeds `Collocator.temporal_search`: it unconditionally raises
NotImplementedError. -/
def temporal_search : Except CollocError (List (Nat × Nat) × List Int) :=
  .error (.notImplementedError "Not yet implemented!")

/-- Embeds `Collocator._prepare_data`.  With a `max_interval` the common time
period (expanded by `max_interval` and clipped by `start`/`stop`) is selected
from both sets and both are sorted by time; `.ok none` is returned when the
selection leaves nothing.  When either set is empty,
`_get_common_time_period` evaluates `time.min()` on a zero-size array, which
raises ValueError (numpy reduction with no identity) before any selection.
Without a `max_interval` the data is only flattened. -/
def prepare_data (p s : PointSet) (max_interval : Option Int)
    (start stop : Option Int) :
    Except CollocError (Option (List SampleRow × List SampleRow)) :=
  let rows1 := p.rows
  let rows2 := s.rows
  match max_interval with
  | none => .ok (some (rows1, rows2))
  | some mi =>
    match (rows1.map (·.1)).min?, (rows1.map (·.1)).max?,
          (rows2.map (·.1)).min?, (rows2.map (·.1)).max? with
    | some min1, some max1, some min2, some max2 =>
      let cs0 := max (min1 - mi) (min2 - mi)
      let cs := match start with | none => cs0 | some v => max v cs0
      let ce0 := min (max1 + mi) (max2 + mi)
      let ce := match stop with | none => ce0 | some v => min v ce0
      let r1 := rows1.filter fun r => cs ≤ r.1 && r.1 ≤ ce
      let r2 := rows2.filter fun r => cs ≤ r.1 && r.1 ≤ ce
      if r1.isEmpty || r2.isEmpty then .ok none
      else .ok (some (r1.insertionSort (fun a b => a.1 ≤ b.1),
                      r2.insertionSort (fun a b => a.1 ≤ b.1)))
    | _, _, _, _ =>
      .error (.valueError
        "zero-size array to reduction operation minimum which has no identity")

/-- Row validity: `lat.notnull() & lon.notnull()` (`_get_not_nans`). -/
def rowValid (r : SampleRow) : Bool := r.2.1.isSome && r.2.2.isSome

/-- The `original_indices` of `collocate`: positions of the rows whose lat and
lon are not NaN (`np.arange(size)[not_nans]`). -/
def not_nan_indices (rows : List SampleRow) : List Nat :=
  (rows.enum.filter fun q => rowValid q.2).map (·.1)

/-- The NaN-filtered data rows (`lat.values[not_nans]` and friends). -/
def valid_rows (rows : List SampleRow) : List ValidRow :=
  rows.filterMap fun r =>
    match r.2.1, r.2.2 with
    | some la, some lo => some (r.1, la, lo)
    | _, _ => none

/-- Latitudes of filtered rows. -/
def lats (rows : List ValidRow) : List Int := rows.map fun r => r.2.1

/-- Longitudes of filtered rows. -/
def lons (rows : List ValidRow) : List Int := rows.map fun r => r.2.2

/-- The time of the filtered sample with filtered index `i`: the lookup
`time[i]` where `time = prepared.time.values[not_nans]`, expressed through
the prepared rows and the not-NaN index list. -/
def timeAt (rows : List SampleRow) (idx : List Nat) (i : Nat) : Int :=
  (rows.getD (idx.getD i 0) defRow).1

/-- Embeds `Collocator._to_original`: map filtered-local pair indices back to
positions in the prepared data via `original_indices`. -/
def to_original (idx1 idx2 : List Nat) (pairs : List (Nat × Nat)) : List (Nat × Nat) :=
  pairs.map fun q => (idx1.getD q.1 0, idx2.getD q.2 0)

/-- Nanoseconds per day, for the pandas grouper origin. -/
def dayNs : Int := 86400000000000

/-- The left edge of the day of `t` (`origin="start_day"` of the pandas
time grouper: bins are aligned to the midnight before the first timestamp). -/
def dayFloor (t : Int) : Int := (t.fdiv dayNs) * dayNs

/-- The bin number of time `t` for bins of width `binDur` anchored at
`origin` (floor division, as pandas bins timestamps). -/
def binIdx (origin binDur t : Int) : Int := (t - origin).fdiv binDur

/-- Embeds `index.searchsorted(v)` on a sorted index: the number of elements
strictly below `v`, i.e. the first insertion position. -/
def searchsortedLeft (ts : List Int) (v : Int) : Nat :=
  ts.countP fun t => decide (t < v)

/-- One step of the bin loop of `spatial_search_with_temporal_binning`:
embeds `_bin_pairs` composed with `_spatial_search_bin` for the bin with
label `k`, threading the collocator state (the index cache is reused across
bins).  The primary here is the larger set after the swap. -/
def bin_step (mf : Nat) (dist : Metric4) (p s : List ValidRow)
    (max_distance max_interval origin binDur : Int)
    (acc : Collocator × List ((Nat × Nat) × Int)) (k : Int) :
    Collocator × List ((Nat × Nat) × Int) :=
  let chunk1 := p.filter fun r => binIdx origin binDur r.1 == k
  let chunk1Start := origin + k * binDur
  let offset1 := searchsortedLeft (p.map (·.1)) chunk1Start
  let chunk2Start := chunk1Start - max_interval
  let chunk2End := ((chunk1.map (·.1)).max?.getD 0) + max_interval
  let offset2 := searchsortedLeft (s.map (·.1)) chunk2Start
  let chunk2 := s.filter fun r => chunk2Start ≤ r.1 && r.1 ≤ chunk2End
  if chunk1.isEmpty || chunk2.isEmpty then acc
  else
    let res := spatial_search acc.1 mf dist
      (lats chunk1) (lons chunk1) (lats chunk2) (lons chunk2) max_distance
    let shifted := (res.2.1.map fun q => (q.1 + offset1, q.2 + offset2)).zip res.2.2
    (res.1, acc.2 ++ shifted)

/-- Embeds `Collocator.spatial_search_with_temporal_binning`: swap so the
larger set is binned, bin its (sorted) time axis into windows of width
`bin_factor * max_interval` aligned to the start of the first day, pair each
bin with the `max_interval`-expanded slice of the other set, run the spatial
search per bin, shift local pair indices by the slice offsets, merge, and
swap the pair rows back.  The final `distances[[0, 1]] = distances[[1, 0]]`
of the source swaps the first two entries of the flat distance array (an
IndexError when only one pair was found). -/
def spatial_search_with_temporal_binning (c : Collocator) (mf : Nat)
    (dist : Metric4) (p0 s0 : List ValidRow) (max_distance max_interval : Int)
    (bin_factor : Nat) :
    Except CollocError (Collocator × List (Nat × Nat) × List Int) :=
  let binDur := (bin_factor : Int) * max_interval
  if binDur ≤ 0 then .error (.valueError "bin duration must be positive") else
  let swapped := s0.length > p0.length
  let p := if swapped then s0 else p0
  let s := if swapped then p0 else s0
  match p.head? with
  | none => .error (.valueError "not enough values to unpack")
  | some r0 =>
    let origin := dayFloor r0.1
    let keys := uniqueFirst (p.map fun r => binIdx origin binDur r.1)
    let merged := keys.foldl
      (bin_step mf dist p s max_distance max_interval origin binDur) (c, [])
    let pairs := merged.2.map (·.1)
    if !pairsAny pairs then .ok (merged.1, [], [])
    else
      let dists := merged.2.map (·.2)
      if swapped then
        match dists with
        | d0 :: d1 :: rest =>
          .ok (merged.1, pairs.map (fun q => (q.2, q.1)), d1 :: d0 :: rest)
        | _ => .error (.indexError "index 1 is out of bounds for axis 0 with size 1")
      else .ok (merged.1, pairs, dists)

/-- Embeds `Collocator.collocate`.  `dist` is the radius-search metric of the
spatial-index oracle; `tunnel_limit` is stored by the source
(`self.tunnel_limit = tunnel_limit`) but never read afterwards, and
`leaf_size` only tunes tree performance; both are kept in the signature to
mirror the source.  Returns the collocation record, the canonical empty
dataset, or the raised exception. -/
def collocate (c : Collocator) (dist : Metric4) (primary secondary : PointSet)
    (max_interval : Option Int) (max_distance : Option Int)
    (bin_factor : Nat) (magnitude_factor : Nat) (tunnel_limit : Option Int)
    (start stop : Option Int) (leaf_size : Nat) :
    Except CollocError Collocations :=
  match max_distance, max_interval with
  | none, none =>
    .error (.valueError "Either max_distance or max_interval must be given!")
  | md, mi =>
    match prepare_data primary secondary mi start stop with
    | .error e => .error e
    | .ok none => .ok .empty
    | .ok (some prep) =>
      let prep1 := prep.1
      let prep2 := prep.2
      let idx1 := not_nan_indices prep1
      let idx2 := not_nan_indices prep2
      let f1 := valid_rows prep1
      let f2 := valid_rows prep2
      match mi, md with
      | none, none =>
        -- unreachable: guarded by the first match
        .error (.valueError "Either max_distance or max_interval must be given!")
      | none, some d =>
        -- spatial-only search; intervals are computed for reporting only
        let res := spatial_search c magnitude_factor dist
          (lats f1) (lons f1) (lats f2) (lons f2) d
        let intervals := res.2.1.map fun q =>
          interval_secs (timeAt prep1 idx1 q.1) (timeAt prep2 idx2 q.2)
        .ok (create_return prep1 prep2 (to_original idx1 idx2 res.2.1)
          intervals res.2.2)
      | some _, none =>
        -- temporal-only search is not implemented in the source
        match temporal_search with
        | .error e => .error e
        | .ok _ => .ok .empty
      | some miv, some d =>
        let searched : Except CollocError (List (Nat × Nat) × List Int) :=
          if f1.length * f2.length > 1000000 then
            match spatial_search_with_temporal_binning c magnitude_factor dist
                f1 f2 d miv bin_factor with
            | .error e => .error e
            | .ok res => .ok (res.2.1, res.2.2)
          else
            let res := spatial_search c magnitude_factor dist
              (lats f1) (lons f1) (lats f2) (lons f2) d
            .ok (res.2.1, res.2.2)
        match searched with
        | .error e => .error e
        | .ok sr =>
          if !pairsAny sr.1 then .ok .empty
          else
            let kept := (sr.1.zip sr.2).filter fun q =>
              passes_temporal_check (timeAt prep1 idx1 q.1.1)
                (timeAt prep2 idx2 q.1.2) miv
            let intervals := kept.map fun q =>
              interval_secs (timeAt prep1 idx1 q.1.1) (timeAt prep2 idx2 q.1.2)
            .ok (create_return prep1 prep2
              (to_original idx1 idx2 (kept.map (·.1))) intervals
              (kept.map (·.2)))

/-- Embeds the argument validation and work partitioning of
`Collocator.collocate_filesets`: exactly two filesets are required,
`max_interval` is required, the worker count defaults to 1 and is clamped to
the number of matches, and `np.array_split(matches, processes)` raises a
ValueError when the number of sections is zero.  On success the number of
worker chunks is returned. -/
def collocate_filesets (filesetsCount : Nat) (max_interval : Option Int)
    (matchesCount : Nat) (processes : Option Nat) : Except CollocError Nat :=
  if filesetsCount ≠ 2 then
    .error (.valueError "Only collocating two filesets at once is allowedat the moment!")
  else
    match max_interval with
    | none =>
      .error (.valueError "Collocating filesets without max_interval is not yet implemented!")
    | some _ =>
      let procs := min (processes.getD 1) matchesCount
      if procs = 0 then
        .error (.valueError "number sections must be larger than 0.")
      else .ok procs

/-- A concrete metric instance used for the evaluation theorems: the taxicab
distance on the (lat, lon) plane.  Every concrete counterexample uses it as
the radius-search oracle metric. -/
def taxicab : Metric4 := fun la1 lo1 la2 lo2 => |la1 - la2| + |lo1 - lo2|

/-- The specification's reuse criterion, written from the spec's words
(4.2: the given point arrays are "numerically close (element-wise,
shape-equal)" to the build arrays), refined by numpy broadcasting: either
the arrays have equal length and are pointwise close, or one array has
length 1 and its single element is close against every element of the
other.  Used only to characterize `spatial_is_cached`. -/
def broadcastClose (a b : List Int) : Prop :=
  (a.length = b.length ∧ ∀ k, k < a.length → isCloseI (a.getD k 0) (b.getD k 0) = true)
  ∨ (a.length = 1 ∧ ∀ k, k < b.length → isCloseI (a.getD 0 0) (b.getD k 0) = true)
  ∨ (b.length = 1 ∧ ∀ k, k < a.length → isCloseI (a.getD k 0) (b.getD 0 0) = true)

/-! Helper lemmas about list lookups and `uniqueFirst`. -/

theorem getD_of_lt {α : Type} {l : List α} {i : Nat} (h : i < l.length) (d : α) :
    l.getD i d = l[i] := by
  simp [List.getD_eq_getElem?_getD, List.getElem?_eq_getElem h]

theorem getD_map_of_lt {α β : Type} (f : α → β) {l : List α} {i : Nat}
    (h : i < l.length) (d : β) (d' : α) :
    (l.map f).getD i d = f (l.getD i d') := by
  rw [getD_of_lt (by simpa using h), getD_of_lt h, List.getElem_map]

theorem getD_mem_of_lt {α : Type} {l : List α} {i : Nat} (h : i < l.length) (d : α) :
    l.getD i d ∈ l := by
  rw [getD_of_lt h]
  exact List.getElem_mem h

theorem getD_indexOf_self {α : Type} [DecidableEq α] {l : List α} {x : α}
    (h : x ∈ l) (d : α) : l.getD (l.indexOf x) d = x := by
  have h' := List.indexOf_lt_length.2 h
  rw [getD_of_lt h' d]
  exact List.getElem_indexOf h'

theorem mem_uniqueFirstAux {α : Type} [DecidableEq α] {l : List α} {b : α} :
    ∀ {seen : List α}, b ∈ uniqueFirstAux seen l ↔ b ∈ l ∧ b ∉ seen := by
  induction l with
  | nil => intro seen; simp [uniqueFirstAux]
  | cons x xs ih =>
    intro seen
    by_cases hx : x ∈ seen
    · simp only [uniqueFirstAux, if_pos hx, ih, List.mem_cons]
      constructor
      · rintro ⟨h1, h2⟩; exact ⟨Or.inr h1, h2⟩
      · rintro ⟨h1 | h1, h2⟩
        · exact absurd (h1 ▸ hx) h2
        · exact ⟨h1, h2⟩
    · simp only [uniqueFirstAux, if_neg hx, List.mem_cons, ih]
      constructor
      · rintro (rfl | ⟨h1, h2⟩)
        · exact ⟨Or.inl rfl, hx⟩
        · exact ⟨Or.inr h1, fun hb => h2 (Or.inr hb)⟩
      · rintro ⟨rfl | h1, h2⟩
        · exact Or.inl rfl
        · by_cases hbx : b = x
          · exact Or.inl hbx
          · refine Or.inr ⟨h1, fun hb => ?_⟩
            rcases hb with h | h
            · exact hbx h
            · exact h2 h

theorem mem_uniqueFirst {α : Type} [DecidableEq α] {l : List α} {b : α} :
    b ∈ uniqueFirst l ↔ b ∈ l := by
  simp [uniqueFirst, mem_uniqueFirstAux]

theorem nodup_uniqueFirstAux {α : Type} [DecidableEq α] (l : List α) :
    ∀ (seen : List α), (uniqueFirstAux seen l).Nodup := by
  induction l with
  | nil => intro seen; simp [uniqueFirstAux]
  | cons x xs ih =>
    intro seen
    by_cases hx : x ∈ seen
    · simpa [uniqueFirstAux, hx] using ih seen
    · simp only [uniqueFirstAux, if_neg hx, List.nodup_cons]
      refine ⟨fun hmem => ?_, ih (x :: seen)⟩
      exact (mem_uniqueFirstAux.1 hmem).2 (List.mem_cons_self x seen)

theorem nodup_uniqueFirst {α : Type} [DecidableEq α] (l : List α) :
    (uniqueFirst l).Nodup := nodup_uniqueFirstAux l []

theorem pairwise_indexOf_uniqueFirstAux {α : Type} [DecidableEq α] (l : List α) :
    ∀ (seen : List α),
      (uniqueFirstAux seen l).Pairwise fun a b => l.indexOf a < l.indexOf b := by
  induction l with
  | nil => intro seen; simp [uniqueFirstAux]
  | cons x xs ih =>
    intro seen
    by_cases hx : x ∈ seen
    · rw [uniqueFirstAux, if_pos hx]
      refine (ih seen).imp_of_mem ?_
      intro a b ha hb hab
      have ha' := (mem_uniqueFirstAux.1 ha)
      have hb' := (mem_uniqueFirstAux.1 hb)
      have hax : a ≠ x := fun h => ha'.2 (h ▸ hx)
      have hbx : b ≠ x := fun h => hb'.2 (h ▸ hx)
      rw [List.indexOf_cons_ne _ (Ne.symm hax), List.indexOf_cons_ne _ (Ne.symm hbx)]
      exact Nat.succ_lt_succ hab
    · rw [uniqueFirstAux, if_neg hx]
      refine List.Pairwise.cons ?_ ?_
      · intro b hb
        have hb' := mem_uniqueFirstAux.1 hb
        have hbx : b ≠ x := fun h => hb'.2 (h ▸ List.mem_cons_self x seen)
        rw [List.indexOf_cons_self, List.indexOf_cons_ne _ (Ne.symm hbx)]
        exact Nat.succ_pos _
      · refine (ih (x :: seen)).imp_of_mem ?_
        intro a b ha hb hab
        have ha' := (mem_uniqueFirstAux.1 ha)
        have hb' := (mem_uniqueFirstAux.1 hb)
        have hax : a ≠ x := fun h => ha'.2 (h ▸ List.mem_cons_self x seen)
        have hbx : b ≠ x := fun h => hb'.2 (h ▸ List.mem_cons_self x seen)
        rw [List.indexOf_cons_ne _ (Ne.symm hax), List.indexOf_cons_ne _ (Ne.symm hbx)]
        exact Nat.succ_lt_succ hab

theorem pairwise_indexOf_uniqueFirst {α : Type} [DecidableEq α] (l : List α) :
    (uniqueFirst l).Pairwise fun a b => l.indexOf a < l.indexOf b :=
  pairwise_indexOf_uniqueFirstAux l []

/-- Structure of a `create_return` result: the remapped pairs have the same
length as the raw pairs, intervals and distances are passed through, and
indexing a reduced subset with a remapped pair entry recovers the row of the
prepared data at the raw pair entry. -/
theorem create_return_record_spec (prep1 prep2 : List SampleRow)
    (op : List (Nat × Nat)) (ints ds : List Int) (r : CollocationRecord)
    (h : create_return prep1 prep2 op ints ds = .record r) :
    r.pairs.length = op.length ∧ r.intervals = ints ∧ r.distances = ds ∧
    ∀ k, k < op.length →
      r.primarySel.getD ((r.pairs.getD k (0, 0)).1) defRow
          = prep1.getD ((op.getD k (0, 0)).1) defRow ∧
      r.secondarySel.getD ((r.pairs.getD k (0, 0)).2) defRow
          = prep2.getD ((op.getD k (0, 0)).2) defRow := by
  unfold create_return at h
  by_cases hp : pairsAny op
  case neg => simp [hp] at h
  case pos =>
    simp only [hp, Bool.not_true, Bool.false_eq_true, if_false,
      Collocations.record.injEq] at h
    subst h
    refine ⟨by simp, rfl, rfl, fun k hk => ?_⟩
    have hkop : op.getD k (0, 0) ∈ op := getD_mem_of_lt hk _
    have h1 : (op.getD k (0, 0)).1 ∈ op.map (·.1) :=
      List.mem_map.2 ⟨_, hkop, rfl⟩
    have h2 : (op.getD k (0, 0)).2 ∈ op.map (·.2) :=
      List.mem_map.2 ⟨_, hkop, rfl⟩
    have hu1 : (op.getD k (0, 0)).1 ∈ uniqueFirst (op.map (·.1)) :=
      mem_uniqueFirst.2 h1
    have hu2 : (op.getD k (0, 0)).2 ∈ uniqueFirst (op.map (·.2)) :=
      mem_uniqueFirst.2 h2
    have hi1 := List.indexOf_lt_length.2 hu1
    have hi2 := List.indexOf_lt_length.2 hu2
    constructor
    · simp only
      rw [getD_map_of_lt _ hk _ (0, 0)]
      simp only
      rw [getD_map_of_lt _ hi1 _ 0, getD_indexOf_self hu1]
    · simp only
      rw [getD_map_of_lt _ hk _ (0, 0)]
      simp only
      rw [getD_map_of_lt _ hi2 _ 0, getD_indexOf_self hu2]

/-- Arithmetic of the truncated-interval comparison: when `max_interval` is a
whole number of seconds, passing the whole-second comparison implies the
strict nanosecond comparison. -/
theorem abs_lt_of_trunc_lt {x d : Int}
    (h : (|x|).ediv nsPerS * nsPerS < d) (hd : nsPerS ∣ d) : |x| < d := by
  obtain ⟨q, rfl⟩ := hd
  have hns : (0 : Int) < nsPerS := by decide
  have h1 : (|x|).ediv nsPerS < q := by
    have := (mul_lt_mul_right hns).1 (by linarith [h] : (|x|).ediv nsPerS * nsPerS < q * nsPerS)
    exact this
  have h2 : |x| % nsPerS < nsPerS := Int.emod_lt_of_pos _ hns
  have h3 : nsPerS * ((|x|).ediv nsPerS) + |x| % nsPerS = |x| := Int.ediv_add_emod _ _
  have h4 : nsPerS * ((|x|).ediv nsPerS + 1) ≤ nsPerS * q := by
    have : (|x|).ediv nsPerS + 1 ≤ q := h1
    exact mul_le_mul_of_nonneg_left this (le_of_lt hns)
  nlinarith [h2, h3, h4]

/-- C2 (amended): every pair of a record returned by `collocate` with a
`max_interval` passes the whole-second truncated comparison of
`_temporal_check` (`_get_intervals` casts to `timedelta64[s]` before the
strict comparison), and, when `max_interval` is a whole number of seconds,
this implies the strict nanosecond comparison `|t1 - t2| < max_interval`. -/
theorem collocate_interval_spec
    (c : Collocator) (dist : Metric4) (p s : PointSet) (mi : Int)
    (md : Option Int) (bf mf : Nat) (tl : Option Int) (st en : Option Int)
    (ls : Nat) (r : CollocationRecord)
    (hres : collocate c dist p s (some mi) md bf mf tl st en ls
      = .ok (.record r))
    (k : Nat) (hk : k < r.pairs.length) :
    interval_secs ((r.primarySel.getD ((r.pairs.getD k (0, 0)).1) defRow).1)
        ((r.secondarySel.getD ((r.pairs.getD k (0, 0)).2) defRow).1) * nsPerS < mi
    ∧ (nsPerS ∣ mi →
        |(r.primarySel.getD ((r.pairs.getD k (0, 0)).1) defRow).1
          - (r.secondarySel.getD ((r.pairs.getD k (0, 0)).2) defRow).1| < mi) := by
  cases md with
  | none =>
    exfalso
    simp only [collocate, temporal_search] at hres
    split at hres
    · exact absurd hres (by simp)
    · exact absurd hres (by simp)
    · exact absurd hres (by simp)
  | some d =>
    simp only [collocate] at hres
    split at hres
    · exact absurd hres (by simp)
    · exact absurd hres (by simp)
    case _ prep heq =>
      set prep1 := prep.1 with hprep1
      set prep2 := prep.2 with hprep2
      set idx1 := not_nan_indices prep1 with hidx1
      set idx2 := not_nan_indices prep2 with hidx2
      split at hres
      · exact absurd hres (by simp)
      case _ sr heq2 =>
        split at hres
        · exact absurd hres (by simp)
        case _ hpa =>
          have hcr := Except.ok.inj hres
          set kept := (sr.1.zip sr.2).filter fun q =>
            passes_temporal_check (timeAt prep1 idx1 q.1.1)
              (timeAt prep2 idx2 q.1.2) mi with hkept
          set op := to_original idx1 idx2 (kept.map (·.1)) with hop
          obtain ⟨hlen, _, _, hround⟩ :=
            create_return_record_spec prep1 prep2 op _ _ r hcr
          have hkop : k < op.length := by rw [← hlen]; exact hk
          have hkk : k < kept.length := by
            have : op.length = kept.length := by
              simp [hop, to_original]
            rw [← this]; exact hkop
          have hkd : kept.getD k ((0, 0), 0) ∈ kept := getD_mem_of_lt hkk _
          have hpass : passes_temporal_check
              (timeAt prep1 idx1 ((kept.getD k ((0, 0), 0)).1.1))
              (timeAt prep2 idx2 ((kept.getD k ((0, 0), 0)).1.2)) mi = true := by
            have := List.mem_filter.1 (hkept ▸ hkd)
            exact this.2
          have hopk : op.getD k (0, 0)
              = (idx1.getD ((kept.getD k ((0, 0), 0)).1.1) 0,
                 idx2.getD ((kept.getD k ((0, 0), 0)).1.2) 0) := by
            rw [hop]
            unfold to_original
            rw [getD_map_of_lt _ (by simpa using hkk) _ (0, 0),
                getD_map_of_lt _ hkk _ ((0, 0), 0)]
          obtain ⟨hP, hS⟩ := hround k hkop
          rw [hopk] at hP hS
          have hT1 : (r.primarySel.getD ((r.pairs.getD k (0, 0)).1) defRow).1
              = timeAt prep1 idx1 ((kept.getD k ((0, 0), 0)).1.1) := by
            rw [hP]; rfl
          have hT2 : (r.secondarySel.getD ((r.pairs.getD k (0, 0)).2) defRow).1
              = timeAt prep2 idx2 ((kept.getD k ((0, 0), 0)).1.2) := by
            rw [hS]; rfl
          rw [hT1, hT2]
          have hlt : interval_secs (timeAt prep1 idx1 ((kept.getD k ((0, 0), 0)).1.1))
              (timeAt prep2 idx2 ((kept.getD k ((0, 0), 0)).1.2)) * nsPerS < mi := by
            simpa [passes_temporal_check] using hpass
          exact ⟨hlt, fun hdvd => abs_lt_of_trunc_lt hlt hdvd⟩

/-- A radius query over points that are all farther than the radius returns
no pairs. -/
theorem query_far_nil (dist : Metric4) (blat blon qlat qlon : List Int) (r : Int)
    (h : ∀ i j, i < blat.length → j < qlat.length →
      ¬ dist (blat.getD i 0) (blon.getD i 0) (qlat.getD j 0) (qlon.getD j 0) ≤ r) :
    GeoIndex.query dist blat blon qlat qlon r = [] := by
  unfold GeoIndex.query
  rw [List.flatMap_eq_nil_iff]
  intro j hj
  rw [List.filterMap_eq_nil_iff]
  intro i hi
  rw [if_neg (h i j (List.mem_range.1 hi) (List.mem_range.1 hj))]

/-- With no cached index and all cross distances beyond the radius,
`spatial_search` returns the canonical empty result. -/
theorem spatial_search_far_nil (c : Collocator) (hc : c.index = none) (mf : Nat)
    (dist : Metric4) (lat1 lon1 lat2 lon2 : List Int) (d : Int)
    (hfar : ∀ i j, i < lat1.length → j < lat2.length →
      ¬ dist (lat1.getD i 0) (lon1.getD i 0) (lat2.getD j 0) (lon2.getD j 0) ≤ d
      ∧ ¬ dist (lat2.getD j 0) (lon2.getD j 0) (lat1.getD i 0) (lon1.getD i 0) ≤ d) :
    (spatial_search c mf dist lat1 lon1 lat2 lon2 d).2.1 = []
    ∧ (spatial_search c mf dist lat1 lon1 lat2 lon2 d).2.2 = [] := by
  have hnc : ∀ la lo, spatial_is_cached c la lo = false := by
    intro la lo; simp [spatial_is_cached, hc]
  have hq1 : GeoIndex.query dist lat1 lon1 lat2 lon2 d = [] :=
    query_far_nil dist lat1 lon1 lat2 lon2 d fun i j hi hj => (hfar i j hi hj).1
  have hq2 : GeoIndex.query dist lat2 lon2 lat1 lon1 d = [] :=
    query_far_nil dist lat2 lon2 lat1 lon1 d fun j i hj hi => (hfar i j hi hj).2
  by_cases hiwp : choose_points_to_build_index c mf lat1 lon1 lat2 lon2
  · simp [spatial_search, hiwp, build_spatial_index, hnc, hq1, pairsAny]
  · simp [spatial_search, hiwp, build_spatial_index, hnc, hq2, pairsAny]

/-- A spatial-only `collocate` on data whose valid points are all farther
apart than `max_distance` returns the canonical empty dataset, raising no
exception. -/
theorem collocate_spatial_only_no_match
    (c : Collocator) (dist : Metric4) (p s : PointSet) (d : Int)
    (bf mf : Nat) (tl st en : Option Int) (ls : Nat)
    (hc : c.index = none)
    (hfar : ∀ i j, i < (lats (valid_rows p.rows)).length →
      j < (lats (valid_rows s.rows)).length →
      ¬ dist ((lats (valid_rows p.rows)).getD i 0)
          ((lons (valid_rows p.rows)).getD i 0)
          ((lats (valid_rows s.rows)).getD j 0)
          ((lons (valid_rows s.rows)).getD j 0) ≤ d
      ∧ ¬ dist ((lats (valid_rows s.rows)).getD j 0)
          ((lons (valid_rows s.rows)).getD j 0)
          ((lats (valid_rows p.rows)).getD i 0)
          ((lons (valid_rows p.rows)).getD i 0) ≤ d) :
    collocate c dist p s none (some d) bf mf tl st en ls = .ok .empty := by
  obtain ⟨hA, hB⟩ := spatial_search_far_nil c hc mf dist
    (lats (valid_rows p.rows)) (lons (valid_rows p.rows))
    (lats (valid_rows s.rows)) (lons (valid_rows s.rows)) d hfar
  simp [collocate, prepare_data, hA, hB, to_original, create_return, pairsAny]

/-- Every value is close to itself: `np.allclose(x, x)` holds elementwise. -/
theorem all_isCloseI_zip_self (l : List Int) :
    ((l.zip l).all fun q => isCloseI q.1 q.2) = true := by
  induction l with
  | nil => rfl
  | cons x xs ih =>
    rw [List.zip_cons_cons, List.all_cons, ih]
    have hx : isCloseI x x = true := by
      simp only [isCloseI, sub_self, abs_zero, mul_zero, decide_eq_true_eq]
      linarith [abs_nonneg x]
    simp [hx]

/-- A boolean `all` over a list, phrased through positional lookups. -/
theorem all_getD_iff {α : Type} (p : α → Bool) (l : List α) (d : α) :
    (l.all p = true) ↔ ∀ k, k < l.length → p (l.getD k d) = true := by
  induction l with
  | nil => simp
  | cons x xs ih =>
    rw [List.all_cons, Bool.and_eq_true, ih]
    constructor
    · rintro ⟨hx, hrest⟩ k hk
      cases k with
      | zero => simpa using hx
      | succ n => simpa using hrest n (Nat.lt_of_succ_lt_succ hk)
    · intro h
      refine ⟨by simpa using h 0 (Nat.succ_pos _), fun k hk => ?_⟩
      simpa using h (k + 1) (Nat.succ_lt_succ hk)

/-- A boolean `all` over a zip of equal-length lists, phrased through
positional lookups. -/
theorem all_zip_getD_iff (f : Int → Int → Bool) (a b : List Int)
    (hl : a.length = b.length) :
    (((a.zip b).all fun q => f q.1 q.2) = true) ↔
      ∀ k, k < a.length → f (a.getD k 0) (b.getD k 0) = true := by
  induction a generalizing b with
  | nil => simp
  | cons x xs ih =>
    cases b with
    | nil => simp at hl
    | cons y ys =>
      rw [List.zip_cons_cons, List.all_cons, Bool.and_eq_true,
        ih ys (by simpa using hl)]
      constructor
      · rintro ⟨hx, hrest⟩ k hk
        cases k with
        | zero => simpa using hx
        | succ n => simpa using hrest n (Nat.lt_of_succ_lt_succ hk)
      · intro h
        refine ⟨by simpa using h 0 (Nat.succ_pos _), fun k hk => ?_⟩
        simpa using h (k + 1) (Nat.succ_lt_succ hk)

/-- The source's `np.allclose` computation holds exactly when the spec's
broadcast-closeness criterion holds. -/
theorem allcloseI_some_true_iff (a b : List Int) :
    allcloseI a b = some true ↔ broadcastClose a b := by
  unfold allcloseI broadcastClose
  by_cases hl : a.length = b.length
  · rw [if_pos hl]
    simp only [Option.some.injEq]
    rw [all_zip_getD_iff _ a b hl]
    constructor
    · intro h; exact Or.inl ⟨hl, h⟩
    · rintro (⟨_, h⟩ | ⟨h1, h⟩ | ⟨h1, h⟩)
      · exact h
      · intro k hk
        have hk0 : k = 0 := by omega
        subst hk0
        exact h 0 (by omega)
      · intro k hk
        have hk0 : k = 0 := by omega
        subst hk0
        exact h 0 (by omega)
  · rw [if_neg hl]
    by_cases h1 : a.length = 1
    · rw [if_pos h1]
      simp only [Option.some.injEq]
      rw [all_getD_iff]
      constructor
      · intro h; exact Or.inr (Or.inl ⟨h1, h⟩)
      · rintro (⟨he, _⟩ | ⟨_, h⟩ | ⟨hb1, _⟩)
        · exact absurd he hl
        · exact h
        · exact absurd (h1.trans hb1.symm) hl
    · by_cases h2 : b.length = 1
      · rw [if_neg h1, if_pos h2]
        simp only [Option.some.injEq]
        rw [all_getD_iff]
        constructor
        · intro h; exact Or.inr (Or.inr ⟨h2, h⟩)
        · rintro (⟨he, _⟩ | ⟨ha1, _⟩ | ⟨_, h⟩)
          · exact absurd he hl
          · exact absurd ha1 h1
          · exact h
      · rw [if_neg h1, if_neg h2]
        constructor
        · intro h; cases h
        · rintro (⟨he, _⟩ | ⟨ha1, _⟩ | ⟨hb1, _⟩)
          · exact absurd he hl
          · exact absurd ha1 h1
          · exact absurd hb1 h2

/-- Equal-length arrays with one entry beyond tolerance fail `np.allclose`. -/
theorem allcloseI_some_false_of_fail (a b : List Int)
    (hlen : a.length = b.length)
    (hex : ∃ k, k < b.length ∧ isCloseI (a.getD k 0) (b.getD k 0) = false) :
    allcloseI a b = some false := by
  obtain ⟨k, hk, hfail⟩ := hex
  unfold allcloseI
  rw [if_pos hlen]
  refine congrArg some ?_
  have hk' : k < (a.zip b).length := by
    rw [List.length_zip, hlen]
    exact Nat.lt_min.2 ⟨hk, hk⟩
  have hmem : (a.getD k 0, b.getD k 0) ∈ a.zip b := by
    have := getD_mem_of_lt hk' ((0 : Int), (0 : Int))
    rwa [getD_of_lt hk', List.getElem_zip,
      ← getD_of_lt (by rw [hlen]; exact hk) (0 : Int),
      ← getD_of_lt hk (0 : Int)] at this
  rw [List.all_eq_false]
  exact ⟨(a.getD k 0, b.getD k 0), hmem, by simpa using hfail⟩

/-! Claim theorems. -/

/-- C1: The spatial search is claimed to return exactly the pairs within the
radius.  Soundness holds, but completeness fails at the corner where the only
matching pair is (0, 0): the radius oracle finds the pair (its distance 0 is
within radius 1), yet `spatial_search` — whose emptiness test is
`pairs.any()`, false on the all-zero array — discards it, and `collocate`
returns the canonical empty dataset for an input with one genuine
collocation. -/
theorem C1_theorem :
    (GeoIndex.query taxicab [0] [0] [0] [0] 1).map (·.1) = [(0, 0)]
    ∧ taxicab 0 0 0 0 ≤ 1
    ∧ (spatial_search freshCollocator 10 taxicab [0] [0] [0] [0] 1).2.1 = []
    ∧ collocate freshCollocator taxicab ⟨[0], [some 0], [some 0]⟩
        ⟨[0], [some 0], [some 0]⟩ none (some 1) 1 10 none none none 40
      = .ok .empty :=
  ⟨by decide, by decide, by decide, by decide⟩

/-- C2 (counterexample): the claim that every returned pair satisfies the
strict inequality `|t1 - t2| < max_interval` fails: with
`max_interval = 0.5 s` the pair below has `|t1 - t2| = 0.9 s`, yet it is
returned, because `_get_intervals` truncates intervals to whole seconds
(0 s) before the strict comparison. -/
theorem C2_counterexample :
    collocate freshCollocator taxicab
        ⟨[0, 900000000], [some 0, some 90], [some 0, some 90]⟩
        ⟨[0, 900000000], [some 50, some 0], [some 0, some 0]⟩
        (some 500000000) (some 1) 1 10 none none none 40
      = .ok (.record ⟨[(0, some 0, some 0)], [(900000000, some 0, some 0)],
          [(0, 0)], [0], [0]⟩)
    ∧ ¬ |(0 : Int) - 900000000| < 500000000 :=
  ⟨by decide, by decide⟩

/-- C2 (witness for the amended theorem): a combined search returning a
record on which the amended interval bound holds at pair 0. -/
theorem C2_witness : interval_secs 0 900000000 * nsPerS < 500000000 := by
  have h := collocate_interval_spec freshCollocator taxicab
    ⟨[0, 900000000], [some 0, some 90], [some 0, some 90]⟩
    ⟨[0, 900000000], [some 50, some 0], [some 0, some 0]⟩
    500000000 (some 1) 1 10 none none none 40
    ⟨[(0, some 0, some 0)], [(900000000, some 0, some 0)], [(0, 0)], [0], [0]⟩
    (by decide) 0 (by decide)
  exact h.1

/-- C3: the pre-binned combined search drops a valid pair that the direct
path keeps.  Primary has two points, secondary one; the only spatial match
lands in a bin where its bin-local index pair is (0, 0), so the per-bin
`pairs.any()` test discards it and the binned search returns the canonical
empty result, while the direct path (spatial search on the full sets, then
the temporal filter, which the pair passes) returns the pair (1, 0). -/
theorem C3_theorem :
    spatial_search_with_temporal_binning freshCollocator 10 taxicab
        [(100000000, 50, 50), (1200000000, 0, 0)] [(1300000000, 0, 0)]
        1 1000000000 1
      = .ok (⟨some ([0], [0]), false⟩, [], [])
    ∧ (spatial_search freshCollocator 10 taxicab
        (lats [(100000000, 50, 50), (1200000000, 0, 0)])
        (lons [(100000000, 50, 50), (1200000000, 0, 0)])
        (lats [(1300000000, 0, 0)]) (lons [(1300000000, 0, 0)]) 1).2.1 = [(1, 0)]
    ∧ passes_temporal_check 1200000000 1300000000 1000000000 = true :=
  ⟨by decide, by decide, by decide⟩

/-- C4: when the binned search swapped the datasets, the final
`distances[[0, 1]] = distances[[1, 0]]` swaps the first two entries of the
flat distance array instead of its (nonexistent) rows: the returned pairs
are [(0, 0), (1, 1)] with distance array [2, 5], although the distance of
pair 0 is 5 and of pair 1 is 2 — the k-th distance entry no longer belongs
to the k-th pair. -/
theorem C4_theorem :
    spatial_search_with_temporal_binning freshCollocator 10 taxicab
        [(150000000, 0, 5), (250000000, 10, 2)]
        [(100000000, 0, 0), (200000000, 10, 0), (5000000000, 50, 50)]
        6 1000000000 1
      = .ok (⟨some ([0, 10], [5, 2]), false⟩, [(0, 0), (1, 1)], [2, 5])
    ∧ taxicab 0 5 0 0 = 5
    ∧ taxicab 10 2 10 0 = 2
    ∧ ([2, 5] : List Int) ≠ [5, 2] :=
  ⟨by decide, by decide, by decide, by decide⟩

/-- C5 (counterexample): two parts of the claim fail.  First,
`check_collocation_data` does not accept the canonical empty record: the
mandatory field Collocations/pairs is missing from `xr.Dataset()`, so it
raises InvalidCollocationData.  Second, an empty input with a `max_interval`
does not return the empty record without exception: the zero-size
`time.min()` reduction inside `_get_common_time_period` raises ValueError. -/
theorem C5_counterexample :
    check_collocation_data Collocations.empty
      = .error "Could not find the field Collocations/pairs!"
    ∧ collocate freshCollocator taxicab ⟨[], [], []⟩ ⟨[], [], []⟩
        (some 1000000000) (some 1) 1 10 none none none 40
      = .error (.valueError
          "zero-size array to reduction operation minimum which has no identity") :=
  ⟨by decide, by decide⟩

/-- C5 (amended): no-match inputs (including empty ones) of a spatial-only
search make `collocate` return the canonical empty dataset without raising;
an empty input with a `max_interval` instead raises ValueError from the
zero-size `time.min()` reduction of `_get_common_time_period`; and
`check_collocation_data` rejects the canonical empty dataset (callers must
skip validation for empty results, as `_collocate_files` does with its
`if not collocations.variables` guard). -/
theorem C5_theorem :
    (∀ (c : Collocator) (dist : Metric4) (p s : PointSet) (d : Int)
        (bf mf : Nat) (tl st en : Option Int) (ls : Nat),
      c.index = none →
      (∀ i j, i < (lats (valid_rows p.rows)).length →
        j < (lats (valid_rows s.rows)).length →
        ¬ dist ((lats (valid_rows p.rows)).getD i 0)
            ((lons (valid_rows p.rows)).getD i 0)
            ((lats (valid_rows s.rows)).getD j 0)
            ((lons (valid_rows s.rows)).getD j 0) ≤ d
        ∧ ¬ dist ((lats (valid_rows s.rows)).getD j 0)
            ((lons (valid_rows s.rows)).getD j 0)
            ((lats (valid_rows p.rows)).getD i 0)
            ((lons (valid_rows p.rows)).getD i 0) ≤ d) →
      collocate c dist p s none (some d) bf mf tl st en ls = .ok .empty)
    ∧ (∀ (c : Collocator) (dist : Metric4) (mi d : Int) (bf mf : Nat)
        (tl st en : Option Int) (ls : Nat),
      collocate c dist ⟨[], [], []⟩ ⟨[], [], []⟩ (some mi) (some d) bf mf tl st en ls
        = .error (.valueError
            "zero-size array to reduction operation minimum which has no identity"))
    ∧ check_collocation_data Collocations.empty
        = .error "Could not find the field Collocations/pairs!" :=
  ⟨fun c dist p s d bf mf tl st en ls hc hfar =>
      collocate_spatial_only_no_match c dist p s d bf mf tl st en ls hc hfar,
   fun c dist mi d bf mf tl st en ls => rfl,
   by decide⟩

/-- C5 (witness): a concrete all-far spatial-only input on which the amended
theorem yields the canonical empty dataset, and a concrete empty input with
`max_interval` on which it yields the ValueError. -/
theorem C5_witness :
    (collocate freshCollocator taxicab ⟨[0], [some 0], [some 0]⟩
        ⟨[0], [some 50], [some 50]⟩ none (some 1) 1 10 none none none 40
      = .ok .empty)
    ∧ collocate freshCollocator taxicab ⟨[], [], []⟩ ⟨[], [], []⟩
        (some 5) (some 7) 1 10 none none none 40
      = .error (.valueError
          "zero-size array to reduction operation minimum which has no identity") := by
  refine ⟨?_, C5_theorem.2.1 freshCollocator taxicab 5 7 1 10 none none none 40⟩
  refine C5_theorem.1 freshCollocator taxicab _ _ 1 1 10 none none none 40 rfl ?_
  intro i j hi hj
  have hi0 : i = 0 := by
    have : i < 1 := by simpa [lats, valid_rows, PointSet.rows] using hi
    omega
  have hj0 : j = 0 := by
    have : j < 1 := by simpa [lats, valid_rows, PointSet.rows] using hj
    omega
  subst hi0; subst hj0
  exact ⟨by decide, by decide⟩

/-- C6: round-trip of the result assembler: remapped pair indices select
from the reduced subsets exactly the prepared rows that the raw pairs
select from the prepared data; each reduced subset is the image of the raw
pair row deduplicated in order of first appearance (no duplicates, exactly
the participating indices, earlier subset entries first occur earlier). -/
theorem C6_theorem (prep1 prep2 : List SampleRow) (op : List (Nat × Nat))
    (ints ds : List Int) (r : CollocationRecord)
    (h : create_return prep1 prep2 op ints ds = .record r) :
    r.pairs.length = op.length
    ∧ (∀ k, k < op.length →
        r.primarySel.getD ((r.pairs.getD k (0, 0)).1) defRow
          = prep1.getD ((op.getD k (0, 0)).1) defRow
        ∧ r.secondarySel.getD ((r.pairs.getD k (0, 0)).2) defRow
          = prep2.getD ((op.getD k (0, 0)).2) defRow)
    ∧ r.primarySel = (uniqueFirst (op.map (·.1))).map (fun i => prep1.getD i defRow)
    ∧ r.secondarySel = (uniqueFirst (op.map (·.2))).map (fun i => prep2.getD i defRow)
    ∧ (uniqueFirst (op.map (·.1))).Nodup
    ∧ (uniqueFirst (op.map (·.2))).Nodup
    ∧ (∀ x, x ∈ uniqueFirst (op.map (·.1)) ↔ x ∈ op.map (·.1))
    ∧ (∀ x, x ∈ uniqueFirst (op.map (·.2)) ↔ x ∈ op.map (·.2))
    ∧ (uniqueFirst (op.map (·.1))).Pairwise
        (fun a b => (op.map (·.1)).indexOf a < (op.map (·.1)).indexOf b)
    ∧ (uniqueFirst (op.map (·.2))).Pairwise
        (fun a b => (op.map (·.2)).indexOf a < (op.map (·.2)).indexOf b) := by
  obtain ⟨h1, _, _, h4⟩ := create_return_record_spec prep1 prep2 op ints ds r h
  unfold create_return at h
  by_cases hp : pairsAny op
  case neg => simp [hp] at h
  case pos =>
    simp only [hp, Bool.not_true, Bool.false_eq_true, if_false,
      Collocations.record.injEq] at h
    refine ⟨h1, h4, ?_, ?_, nodup_uniqueFirst _, nodup_uniqueFirst _,
      fun x => mem_uniqueFirst, fun x => mem_uniqueFirst,
      pairwise_indexOf_uniqueFirst _, pairwise_indexOf_uniqueFirst _⟩
    · rw [← h]
    · rw [← h]

/-- C6 (witness): the assembler round-trip at a concrete pair list with a
duplicated pair entry, instantiated at pair 0. -/
theorem C6_witness :
    ((⟨[(30, some 3, some 3), (10, some 1, some 1)],
       [(40, some 4, some 4), (50, some 5, some 5)],
       [(0, 0), (1, 1), (0, 1)], [1, 2, 3], [4, 5, 6]⟩ :
        CollocationRecord).primarySel.getD
        (((⟨[(30, some 3, some 3), (10, some 1, some 1)],
            [(40, some 4, some 4), (50, some 5, some 5)],
            [(0, 0), (1, 1), (0, 1)], [1, 2, 3], [4, 5, 6]⟩ :
            CollocationRecord).pairs.getD 0 (0, 0)).1) defRow
      = ([(10, some 1, some 1), (20, some 2, some 2), (30, some 3, some 3)] :
          List SampleRow).getD
          ((([(2, 0), (0, 1), (2, 1)] : List (Nat × Nat)).getD 0 (0, 0)).1) defRow)
    ∧ ((⟨[(30, some 3, some 3), (10, some 1, some 1)],
       [(40, some 4, some 4), (50, some 5, some 5)],
       [(0, 0), (1, 1), (0, 1)], [1, 2, 3], [4, 5, 6]⟩ :
        CollocationRecord).secondarySel.getD
        (((⟨[(30, some 3, some 3), (10, some 1, some 1)],
            [(40, some 4, some 4), (50, some 5, some 5)],
            [(0, 0), (1, 1), (0, 1)], [1, 2, 3], [4, 5, 6]⟩ :
            CollocationRecord).pairs.getD 0 (0, 0)).2) defRow
      = ([(40, some 4, some 4), (50, some 5, some 5)] : List SampleRow).getD
          ((([(2, 0), (0, 1), (2, 1)] : List (Nat × Nat)).getD 0 (0, 0)).2) defRow) :=
  (C6_theorem
    [(10, some 1, some 1), (20, some 2, some 2), (30, some 3, some 3)]
    [(40, some 4, some 4), (50, some 5, some 5)]
    [(2, 0), (0, 1), (2, 1)] [1, 2, 3] [4, 5, 6]
    ⟨[(30, some 3, some 3), (10, some 1, some 1)],
     [(40, some 4, some 4), (50, some 5, some 5)],
     [(0, 0), (1, 1), (0, 1)], [1, 2, 3], [4, 5, 6]⟩
    (by decide)).2.1 0 (by decide)

/-- C7 (counterexample): the cache-validity check is claimed true only for
shape-equal arrays and false after an array length change, but numpy
broadcasting makes `np.allclose([10, 10], [10])` true: an index built from
single-point arrays reports reusable for longer arrays. -/
theorem C7_counterexample :
    spatial_is_cached ⟨some ([10], [20]), false⟩ [10, 10] [20, 20] = true
    ∧ ([10, 10] : List Int).length ≠ ([10] : List Int).length :=
  ⟨by decide, by decide⟩

/-- C7 (amended): the cache-validity check is true exactly when both given
coordinate arrays are numerically close to the cached build arrays under
numpy broadcasting semantics (the `broadcastClose` characterization); with
no cached index it is false; it is reflexive; it is false when either
equal-length coordinate array (lat or lon) is perturbed beyond the allclose
tolerance; and a shape mismatch where neither length is 1 (the broadcastable
case) yields false rather than an error.  The broadcast case is why a length
change is not always detected (see the counterexample). -/
theorem C7_theorem :
    (∀ (clat clon lat lon : List Int) (b : Bool),
      spatial_is_cached ⟨some (clat, clon), b⟩ lat lon = true
        ↔ (broadcastClose lat clat ∧ broadcastClose lon clon))
    ∧ (∀ (lat lon : List Int) (b : Bool),
        spatial_is_cached ⟨none, b⟩ lat lon = false)
    ∧ (∀ (lat lon : List Int) (b : Bool),
        spatial_is_cached ⟨some (lat, lon), b⟩ lat lon = true)
    ∧ (∀ (lat lon lat' lon' : List Int) (b : Bool),
        lat'.length = lat.length →
        (∃ k, k < lat.length ∧ isCloseI (lat'.getD k 0) (lat.getD k 0) = false) →
        spatial_is_cached ⟨some (lat, lon), b⟩ lat' lon' = false)
    ∧ (∀ (lat lon lat' lon' : List Int) (b : Bool),
        lon'.length = lon.length →
        (∃ k, k < lon.length ∧ isCloseI (lon'.getD k 0) (lon.getD k 0) = false) →
        spatial_is_cached ⟨some (lat, lon), b⟩ lat' lon' = false)
    ∧ (∀ (lat lon lat' lon' : List Int) (b : Bool),
        lat'.length ≠ lat.length → lat'.length ≠ 1 → lat.length ≠ 1 →
        spatial_is_cached ⟨some (lat, lon), b⟩ lat' lon' = false) := by
  refine ⟨?_, fun lat lon b => rfl, ?_, ?_, ?_, ?_⟩
  · intro clat clon lat lon b
    rw [← allcloseI_some_true_iff, ← allcloseI_some_true_iff]
    cases h1 : allcloseI lat clat with
    | none => simp [spatial_is_cached, h1]
    | some x =>
      cases h2 : allcloseI lon clon with
      | none => simp [spatial_is_cached, h1, h2]
      | some y => simp [spatial_is_cached, h1, h2, Bool.and_eq_true]
  · intro lat lon b
    simp [spatial_is_cached, allcloseI, all_isCloseI_zip_self]
  · intro lat lon lat' lon' b hlen hex
    have hx : allcloseI lat' lat = some false :=
      allcloseI_some_false_of_fail lat' lat hlen hex
    cases hy : allcloseI lon' lon with
    | none => simp [spatial_is_cached, hx, hy]
    | some y => simp [spatial_is_cached, hx, hy]
  · intro lat lon lat' lon' b hlen hex
    have hy : allcloseI lon' lon = some false :=
      allcloseI_some_false_of_fail lon' lon hlen hex
    cases hx : allcloseI lat' lat with
    | none => simp [spatial_is_cached, hx, hy]
    | some x => simp [spatial_is_cached, hx, hy]
  · intro lat lon lat' lon' b h1 h2 h3
    have hx : allcloseI lat' lat = none := by
      unfold allcloseI
      rw [if_neg h1, if_neg h2, if_neg h3]
    simp [spatial_is_cached, hx]

/-- C7 (witness): reflexive reuse on concrete arrays, and rejection after a
perturbation of the lat array and after a perturbation of the lon array. -/
theorem C7_witness :
    spatial_is_cached ⟨some ([10, 20], [0, 0]), false⟩ [10, 20] [0, 0] = true
    ∧ spatial_is_cached ⟨some ([10, 20], [0, 0]), false⟩ [10, 999] [0, 0] = false
    ∧ spatial_is_cached ⟨some ([10, 20], [0, 0]), false⟩ [10, 20] [0, 999] = false :=
  ⟨C7_theorem.2.2.1 [10, 20] [0, 0] false,
   C7_theorem.2.2.2.1 [10, 20] [0, 0] [10, 999] [0, 0] false rfl
     ⟨1, by decide, by decide⟩,
   C7_theorem.2.2.2.2.1 [10, 20] [0, 0] [10, 20] [0, 999] false rfl
     ⟨1, by decide, by decide⟩⟩

/-- C8: `collocate` rejects a call with neither `max_distance` nor
`max_interval`; a temporal-only search on nonempty overlapping data raises
NotImplementedError rather than silently returning empty; and
`collocate_filesets` rejects any number of filesets other than two. -/
theorem C8_theorem :
    (∀ (c : Collocator) (dist : Metric4) (p s : PointSet) (bf mf : Nat)
        (tl st en : Option Int) (ls : Nat),
      collocate c dist p s none none bf mf tl st en ls
        = .error (.valueError "Either max_distance or max_interval must be given!"))
    ∧ collocate freshCollocator taxicab ⟨[0], [some 0], [some 0]⟩
        ⟨[0], [some 0], [some 0]⟩ (some 1000000000) none 1 10 none none none 40
      = .error (.notImplementedError "Not yet implemented!")
    ∧ (∀ (n : Nat) (mi : Option Int) (mc : Nat) (procs : Option Nat), n ≠ 2 →
      collocate_filesets n mi mc procs
        = .error (.valueError
            "Only collocating two filesets at once is allowedat the moment!")) := by
  refine ⟨fun c dist p s bf mf tl st en ls => rfl, by decide, ?_⟩
  intro n mi mc procs hn
  simp [collocate_filesets, hn]

/-- C8 (witness): the configuration errors at concrete inputs. -/
theorem C8_witness :
    collocate freshCollocator taxicab ⟨[], [], []⟩ ⟨[], [], []⟩ none none
        1 10 none none none 40
      = .error (.valueError "Either max_distance or max_interval must be given!")
    ∧ collocate_filesets 3 (some 1) 5 (some 2)
      = .error (.valueError
          "Only collocating two filesets at once is allowedat the moment!") :=
  ⟨C8_theorem.1 freshCollocator taxicab ⟨[], [], []⟩ ⟨[], [], []⟩ 1 10 none none none 40,
   C8_theorem.2.2 3 (some 1) 5 (some 2) (by decide)⟩

/-- C9: the `tunnel_limit` argument of `collocate` has no effect on the
result: the source stores it (`self.tunnel_limit = tunnel_limit`) but never
reads it again — in particular it is not forwarded to the `GeoIndex`
construction (which receives only lat, lon and `leaf_size`) nor to
`great_circle_distance` (called with only the four coordinate arrays), so it
cannot select the distance algorithm, contrary to the docstring. -/
theorem C9_theorem (c : Collocator) (dist : Metric4) (p s : PointSet)
    (mi md : Option Int) (bf mf : Nat) (tl tl' : Option Int)
    (st en : Option Int) (ls : Nat) :
    collocate c dist p s mi md bf mf tl st en ls
      = collocate c dist p s mi md bf mf tl' st en ls := rfl

/-- C10: with zero matching file pairs the worker count is clamped to
`min(processes, 0) = 0` and `np.array_split(matches, 0)` raises ValueError:
the generator raises instead of yielding an empty stream of results. -/
theorem C10_theorem (mi : Int) (procs : Option Nat) :
    collocate_filesets 2 (some mi) 0 procs
      = .error (.valueError "number sections must be larger than 0.") := by
  simp [collocate_filesets]
